import Mathlib

/-!
Shallow embedding of the `charger` reconciliation pipeline (src/main.go).

The program polls an Airtable ledger for unpaid billing records, validates
each record into an `InvoiceItem`, groups items by Stripe customer id,
submits an itemized invoice per customer, and writes the outcome (paid flag
plus notes) back to every contributing record.

Modelling conventions:
- Airtable field maps (`map[string]interface{}` after JSON decoding) become
  association lists of `FieldValue` (string / number / boolean / link-list).
- Go `float64` ledger numbers are modelled as exact rationals; the
  conversions `int64(x)` and `int64(x * 100)` are truncation toward zero.
- `time.Time` values are modelled as seconds on the configured location's
  local timeline; a calendar day is 86400 seconds and
  `AddDate(0, 0, n)` adds `n * 86400`.  `time.LoadLocation` is assumed to
  succeed (its failure is `log.Fatal`, a startup-class abort).
- External calls (Stripe, Airtable updates, paginated fetches) are
  parameters: the fetch loop consumes a list of page responses, Stripe
  invoice creation and Airtable `PartialUpdate` are response functions.
- A failed Go type assertion (`val.(float64)`) is a runtime panic; it is
  modelled as the `crash` outcome, which aborts the whole pass.
-/

namespace Charger

/-- Loosely typed Airtable field value as produced by JSON decoding: a
string, a number (Go `float64`, modelled as an exact rational), a boolean,
or a list of linked values (rollup fields). -/
inductive FieldValue where
  | str : String → FieldValue
  | num : ℚ → FieldValue
  | boolean : Bool → FieldValue
  | list : List FieldValue → FieldValue

mutual

/-- Models `fmt.Sprintf("%v", val)` on a decoded field value. -/
def sprintfV : FieldValue → String
  | .str s => s
  | .num q => toString q
  | .boolean b => if b then "true" else "false"
  | .list l => "[" ++ sprintfVList l ++ "]"

/-- Space-separated element rendering inside a Go slice print. -/
def sprintfVList : List FieldValue → String
  | [] => ""
  | [x] => sprintfV x
  | x :: xs => sprintfV x ++ " " ++ sprintfVList xs

end

/-- Models `fmt.Sprintf("%s", val)`: the string itself for strings, a
formatting-error marker for any other dynamic type. -/
def sprintfS : FieldValue → String
  | .str s => s
  | v => "%!s(" ++ sprintfV v ++ ")"

/-- ASCII lower-casing of one character, as `strings.ToLower` acts on the
ASCII range used by currency codes. -/
def lowerChar (c : Char) : Char :=
  if 65 ≤ c.toNat ∧ c.toNat ≤ 90 then Char.ofNat (c.toNat + 32) else c

/-- Models `strings.ToLower` on the field values in this domain. -/
def lowerStr (s : String) : String := ⟨s.data.map lowerChar⟩

/-- One Airtable record: opaque id plus loosely typed field map. -/
structure Record where
  ID : String
  Fields : List (String × FieldValue)

/-- Field lookup in a record's field map (`record.Fields[col]`); `none` is
the missing-key case (`ok == false`). -/
def getField (r : Record) (name : String) : Option FieldValue :=
  r.Fields.lookup name

/-- The resolved environment configuration consumed by the loop: one
column-name binding per logical field plus the stale-day window
(`STALE_DAYS`, defaulting to -7 when unparseable). -/
structure Config where
  stripeCustomerIDColumn : String
  invoiceAmountColumn : String
  paidColumn : String
  notesColumn : String
  currencyCodeColumn : String
  dateColumn : String
  quantityColumn : String
  itemColumn : String
  propertyColumn : String
  dateServicedColumn : String
  staleDays : ℤ

/-- Gregorian leap-year test. -/
def isLeap (y : ℕ) : Bool := (y % 4 == 0 && y % 100 != 0) || y % 400 == 0

/-- Length of month `m` (1-12). -/
def monthLen (leap : Bool) (m : ℕ) : ℕ :=
  match m with
  | 1 => 31
  | 2 => if leap then 29 else 28
  | 3 => 31
  | 4 => 30
  | 5 => 31
  | 6 => 30
  | 7 => 31
  | 8 => 31
  | 9 => 30
  | 10 => 31
  | 11 => 30
  | 12 => 31
  | _ => 0

/-- Days elapsed in the year before month `m` begins. -/
def daysBeforeMonth (leap : Bool) (m : ℕ) : ℕ :=
  match m with
  | 1 => 0
  | 2 => 31
  | 3 => if leap then 60 else 59
  | 4 => if leap then 91 else 90
  | 5 => if leap then 121 else 120
  | 6 => if leap then 152 else 151
  | 7 => if leap then 182 else 181
  | 8 => if leap then 213 else 212
  | 9 => if leap then 244 else 243
  | 10 => if leap then 274 else 273
  | 11 => if leap then 305 else 304
  | 12 => if leap then 335 else 334
  | _ => 0

/-- Number of leap years in `[0, y)`. -/
def leapsBefore (y : ℕ) : ℕ := (y + 3) / 4 - (y + 99) / 100 + (y + 399) / 400

/-- Day rank of a calendar date: days elapsed since 0000-01-01. -/
def dayRank (y m d : ℕ) : ℕ :=
  365 * y + leapsBefore y + daysBeforeMonth (isLeap y) m + (d - 1)

/-- Numeric value of an ASCII digit character. -/
def digitVal (c : Char) : Option ℕ :=
  if 48 ≤ c.toNat ∧ c.toNat ≤ 57 then some (c.toNat - 48) else none

/-- Models `time.ParseInLocation("2006-01-02", s, loc)` up to the calendar:
exactly `YYYY-MM-DD` with a valid month and day-of-month, rejecting
anything else. -/
def parseYMD (s : String) : Option (ℕ × ℕ × ℕ) :=
  match s.data with
  | [y1, y2, y3, y4, s1, m1, m2, s2, d1, d2] =>
    match digitVal y1, digitVal y2, digitVal y3, digitVal y4,
          digitVal m1, digitVal m2, digitVal d1, digitVal d2 with
    | some a, some b, some c, some e, some f, some g, some h, some i =>
      if s1 = '-' ∧ s2 = '-' then
        let y := ((a * 10 + b) * 10 + c) * 10 + e
        let m := f * 10 + g
        let d := h * 10 + i
        if 1 ≤ m ∧ m ≤ 12 ∧ 1 ≤ d ∧ d ≤ monthLen (isLeap y) m then
          some (y, m, d)
        else none
      else none
    | _, _, _, _, _, _, _, _ => none
  | _ => none

/-- Seconds in one calendar day of the modelled local timeline. -/
def secondsPerDay : ℤ := 86400

/-- Local-midnight timestamp of a parsed `YYYY-MM-DD` string, in seconds on
the configured location's timeline; `none` when parsing fails. -/
def parseDateSecs (s : String) : Option ℤ :=
  (parseYMD s).map (fun x => (dayRank x.1 x.2.1 x.2.2 : ℤ) * secondsPerDay)

/-- Midnight timestamp of a concrete calendar date (convenience for test
values). -/
def secsOfDate (y m d : ℕ) : ℤ := (dayRank y m d : ℤ) * secondsPerDay

/-- Models Go's `int64(x)` on a `float64`: truncation toward zero. -/
def truncRat (q : ℚ) : ℤ := q.num.tdiv (q.den : ℤ)

/-- Models `int64(x * 100)`: conversion of a major-unit amount to Stripe
minor units, truncated toward zero.  On the exact rationals standing in for
`float64` values this is `(num * 100) tdiv den`. -/
def minorUnits (q : ℚ) : ℤ := (q.num * 100).tdiv (q.den : ℤ)

/-- The `InvoiceItem` struct of main.go. -/
structure InvoiceItem where
  item : String
  quantity : ℤ
  amount : ℚ
  currencyCode : String
  property : String
  airtableRecordID : String
  dateServiced : ℤ
  deriving DecidableEq

/-- Outcome of one validation step: a logged per-record skip, a runtime
panic (failed type assertion), or the extracted value. -/
inductive StepResult (α : Type) where
  | skipped : String → StepResult α
  | crash : String → StepResult α
  | value : α → StepResult α
  deriving DecidableEq

/-- Result of validating one record: skip with the logged reason, process
panic, or a normalized item keyed by the resolved customer id. -/
inductive ValidationResult where
  | skip : String → ValidationResult
  | crash : String → ValidationResult
  | ok : String → InvoiceItem → ValidationResult
  deriving DecidableEq

/-- Paid guard (main.go 109-115): skip when a paid field is present and its
`%v` form equals "true". -/
def paidAlready (cfg : Config) (r : Record) : Bool :=
  match getField r cfg.paidColumn with
  | some v => sprintfV v == "true"
  | none => false

/-- Billing-date guard (main.go 125-146).  Absent column skips; a present
value that parses is checked for "not yet due" (now not strictly after the
date) and for staleness (`date.Before(now.AddDate(0,0,staleDays))`); a
present value that fails to parse falls through the guard with no skip,
exactly as the source's `if err == nil` block does. -/
def dateCheck (cfg : Config) (now : ℤ) (r : Record) : Option String :=
  match getField r cfg.dateColumn with
  | none => some "date not present, skipping"
  | some v =>
    match parseDateSecs (sprintfV v) with
    | none => none
    | some t =>
      if ¬ t < now then some "date in future, skipping"
      else if t < now + cfg.staleDays * secondsPerDay then
        some "pay date too old, skipping"
      else none

/-- Service-date step (main.go 148-161): absent or unparseable skips, a
parsed value is recorded on the item. -/
def serviceDateStep (cfg : Config) (r : Record) : StepResult ℤ :=
  match getField r cfg.dateServicedColumn with
  | none => .skipped "service date not present, skipping"
  | some v =>
    match parseDateSecs (sprintfV v) with
    | none => .skipped "error parsing service date"
    | some t => .value t

/-- Customer-id shape resolution (main.go 171-186): first element of a
rollup/link list, the string itself for a plain string, and the zero value
`""` for any other dynamic type (no `default` case in the source switch). -/
def resolveCustomerID : FieldValue → String
  | .list l =>
    match l with
    | [] => ""
    | x :: _ => sprintfV x
  | .str s => s
  | _ => ""

/-- Customer-id step (main.go 164-186): absent column skips, any present
value resolves via `resolveCustomerID`. -/
def customerIDStep (cfg : Config) (r : Record) : StepResult String :=
  match getField r cfg.stripeCustomerIDColumn with
  | none => .skipped "customerID not present, skipping"
  | some v => .value (resolveCustomerID v)

/-- Currency step (main.go 188-194): absent column skips; a present value
is lower-cased and stored with no equality check against "usd". -/
def currencyStep (cfg : Config) (r : Record) : StepResult String :=
  match getField r cfg.currencyCodeColumn with
  | none => .skipped "currency code not present, skipping"
  | some v => .value (lowerStr (sprintfS v))

/-- Amount step (main.go 197-208): absent column skips; the value is then
type-asserted to `float64` (panic on any other type) and compared against
zero with `==` — only an exact zero skips. -/
def amountStep (cfg : Config) (r : Record) : StepResult ℚ :=
  match getField r cfg.invoiceAmountColumn with
  | none => .skipped "invoice amount not present, skipping"
  | some (.num q) =>
    if q = 0 then .skipped "invoice amount not greater than 0, skipping"
    else .value q
  | some _ => .crash "interface conversion: interface is not float64"

/-- Quantity step (main.go 210-216): absent column skips; the value is
type-asserted to `float64` (panic otherwise) and truncated to `int64`. -/
def quantityStep (cfg : Config) (r : Record) : StepResult ℤ :=
  match getField r cfg.quantityColumn with
  | none => .skipped "quantity not present, skipping"
  | some (.num q) => .value (truncRat q)
  | some _ => .crash "interface conversion: interface is not float64"

/-- Item-description step (main.go 218-224). -/
def itemStep (cfg : Config) (r : Record) : StepResult String :=
  match getField r cfg.itemColumn with
  | none => .skipped "item not present, skipping"
  | some v => .value (sprintfV v)

/-- Property step (main.go 226-232). -/
def propertyStep (cfg : Config) (r : Record) : StepResult String :=
  match getField r cfg.propertyColumn with
  | none => .skipped "property not present, skipping"
  | some v => .value (sprintfV v)

/-- Per-record validation body of the main loop (main.go 107-236), the
guards applied in source order; `now` is the current instant on the
configured location's timeline. -/
def validateRecord (cfg : Config) (now : ℤ) (r : Record) : ValidationResult :=
  if paidAlready cfg r then
    .skip "customer already charged for this record, skipping"
  else
    match dateCheck cfg now r with
    | some reason => .skip reason
    | none =>
      match serviceDateStep cfg r with
      | .skipped reason => .skip reason
      | .crash m => .crash m
      | .value sd =>
        match customerIDStep cfg r with
        | .skipped reason => .skip reason
        | .crash m => .crash m
        | .value cust =>
          match currencyStep cfg r with
          | .skipped reason => .skip reason
          | .crash m => .crash m
          | .value cur =>
            match amountStep cfg r with
            | .skipped reason => .skip reason
            | .crash m => .crash m
            | .value amt =>
              match quantityStep cfg r with
              | .skipped reason => .skip reason
              | .crash m => .crash m
              | .value qty =>
                match itemStep cfg r with
                | .skipped reason => .skip reason
                | .crash m => .crash m
                | .value it =>
                  match propertyStep cfg r with
                  | .skipped reason => .skip reason
                  | .crash m => .crash m
                  | .value prop =>
                    .ok cust
                      { item := it
                        quantity := qty
                        amount := amt
                        currencyCode := cur
                        property := prop
                        airtableRecordID := r.ID
                        dateServiced := sd }

/-- Append an item under its customer key, preserving first-seen key order
and per-key fetch order (`customerInvoices[customerID] = append(...)`). -/
def addToGroups (gs : List (String × List InvoiceItem)) (k : String)
    (it : InvoiceItem) : List (String × List InvoiceItem) :=
  match gs with
  | [] => [(k, [it])]
  | (k', its) :: rest =>
    if k' = k then (k', its ++ [it]) :: rest
    else (k', its) :: addToGroups rest k it

/-- Aggregation fold over the fetched batch (main.go 106-236): skips drop
the record, a validated item joins its customer group, and a panic aborts
the whole pass (the Go panic is uncaught). -/
def buildGroupsAux (cfg : Config) (now : ℤ)
    (gs : List (String × List InvoiceItem)) :
    List Record → Except String (List (String × List InvoiceItem))
  | [] => .ok gs
  | r :: rest =>
    match validateRecord cfg now r with
    | .skip _ => buildGroupsAux cfg now gs rest
    | .crash m => .error m
    | .ok cust it => buildGroupsAux cfg now (addToGroups gs cust it) rest

/-- Customer grouping of a fetched batch. -/
def buildGroups (cfg : Config) (now : ℤ) (records : List Record) :
    Except String (List (String × List InvoiceItem)) :=
  buildGroupsAux cfg now [] records

/-- Parameters of one `invoiceitem.New` call (main.go 336-341): customer,
minor-unit amount, currency and composed description — no quantity field is
sent. -/
structure LineParams where
  customer : String
  amount : ℤ
  currency : String
  description : String
  deriving DecidableEq

/-- Human-readable line description `"%s for %s on %s"`. -/
def lineDescription (it : InvoiceItem) : String :=
  it.item ++ " for " ++ it.property ++ " on " ++ toString it.dateServiced

/-- One iteration of the invoice-item loop (main.go 321-346): non-"usd"
currencies fall to the `default: continue` arm, a non-positive minor-unit
amount is dropped, anything else becomes an invoice line. -/
def mkLine (customerID : String) (it : InvoiceItem) : Option LineParams :=
  if it.currencyCode = "usd" then
    if minorUnits it.amount ≤ 0 then none
    else
      some { customer := customerID
             amount := minorUnits it.amount
             currency := it.currencyCode
             description := lineDescription it }
  else none

/-- Stripe's answer to `invoice.New` for a given customer: returned id and
optional error. -/
structure StripeResponse where
  id : String
  err : Option String
  deriving DecidableEq

/-- What one `chargeStripe` call did: the invoice lines submitted in order,
whether the umbrella `invoice.New` call was made, and its result. -/
structure ChargeResult where
  lines : List LineParams
  invoiceID : String
  err : Option String
  invoiceCreated : Bool
  deriving DecidableEq

/-- Models `chargeStripe` (main.go 313-357).  An empty item list returns
`("", nil)` before touching Stripe; otherwise every item is offered to the
line loop in the given list order (individual line failures only log) and
the finalized invoice is created unconditionally, its id and error being
the returned pair. -/
def chargeStripe (stripe : String → StripeResponse) (customerID : String)
    (items : List InvoiceItem) : ChargeResult :=
  if items.length ≤ 0 then
    { lines := [], invoiceID := "", err := none, invoiceCreated := false }
  else
    let r := stripe customerID
    { lines := items.filterMap (mkLine customerID)
      invoiceID := r.id
      err := r.err
      invoiceCreated := true }

/-- One `PartialUpdate` request (main.go 261-269): target record, the two
patched columns, and the ledger's per-record response (logged, never
escalated). -/
structure LedgerUpdate where
  recordID : String
  paid : String
  notes : String
  writeResult : Option String
  deriving DecidableEq

/-- Insertion of one item into a list ascending by `dateServiced`. -/
def insertByTime (x : InvoiceItem) : List InvoiceItem → List InvoiceItem
  | [] => [x]
  | y :: ys =>
    if x.dateServiced < y.dateServiced then x :: y :: ys
    else y :: insertByTime x ys

/-- Models `sort.Sort(invoiceByTime ...)` with `Less` comparing
`dateServiced` (`Before`): a list sorted ascending by service date. -/
def sortInvoiceByTime : List InvoiceItem → List InvoiceItem
  | [] => []
  | x :: xs => insertByTime x (sortInvoiceByTime xs)

/-- Everything one customer-group iteration of main.go 239-273 produced:
the sorted copy built at 242-247 (which the source then never passes on),
the charge, the shared paid/notes values, and the fan-out of ledger
updates. -/
structure GroupOutcome where
  date_sorted_invoices : List InvoiceItem
  charge : ChargeResult
  paidVal : String
  notesVal : String
  updates : List LedgerUpdate
  deriving DecidableEq

/-- One customer-group iteration (main.go 239-273): build the sorted copy,
call `chargeStripe` on the original `invoices` list, derive the shared
update fields from the outcome, and issue one partial update per
contributing record — each with its own ledger response, later failures
not blocking earlier or later siblings. -/
def processGroup (stripe : String → StripeResponse)
    (updateResp : String → Option String) (customerID : String)
    (invoices : List InvoiceItem) : GroupOutcome :=
  let charge := chargeStripe stripe customerID invoices
  let fields : String × String :=
    match charge.err with
    | some e => ("false", "Error charging customer through Stripe: " ++ e)
    | none => ("true", charge.invoiceID)
  { date_sorted_invoices := sortInvoiceByTime invoices
    charge := charge
    paidVal := fields.1
    notesVal := fields.2
    updates := invoices.map fun inv =>
      { recordID := inv.airtableRecordID
        paid := fields.1
        notes := fields.2
        writeResult := updateResp inv.airtableRecordID } }

/-- One page answer of `fetchAirtableRecords`: an error, or records plus
the continuation offset (`""` when this was the last page). -/
abbrev FetchResult : Type := Except String (List Record × String)

/-- The inner fetch loop (main.go 87-102) run against a sequence of page
responses: an error breaks out keeping the records gathered so far, an
empty offset ends the pagination, otherwise the next page is consumed. -/
def collectRecords : List FetchResult → List Record
  | [] => []
  | Except.error _ :: _ => []
  | Except.ok (recs, off) :: rest =>
    recs ++ (if off = "" then [] else collectRecords rest)

/-- One full pass of the outer loop (main.go 82-277): fetch and concatenate
pages, validate and group (a panic aborts), then run every customer group
through charge submission and outcome writing. -/
def runPass (cfg : Config) (now : ℤ) (responses : List FetchResult)
    (stripe : String → StripeResponse)
    (updateResp : String → Option String) :
    Except String (List (String × GroupOutcome)) :=
  match buildGroups cfg now (collectRecords responses) with
  | .error m => .error m
  | .ok gs => .ok (gs.map fun p => (p.1, processGroup stripe updateResp p.1 p.2))

/-! Concrete test fixtures: a configuration, a reference instant, and a
family of records exercising each validation branch.  `now0` is 01:00 local
time on 2024-03-10; with the default stale window of -7 days the eligible
billing dates are 2024-03-03 through 2024-03-09. -/

/-- Column bindings used by the concrete fixtures. -/
def cfg0 : Config :=
  { stripeCustomerIDColumn := "CustomerID"
    invoiceAmountColumn := "Amount"
    paidColumn := "Paid"
    notesColumn := "Notes"
    currencyCodeColumn := "Currency"
    dateColumn := "Date"
    quantityColumn := "Quantity"
    itemColumn := "Item"
    propertyColumn := "Property"
    dateServicedColumn := "DateServiced"
    staleDays := -7 }

/-- Reference instant: 2024-03-10, 01:00 local. -/
def now0 : ℤ := secsOfDate 2024 3 10 + 3600

/-- A fully valid record: usd currency, amount 20, billed 2024-03-08. -/
def recGood : Record :=
  { ID := "recGood"
    Fields :=
      [("Date", .str "2024-03-08"),
       ("DateServiced", .str "2024-03-05"),
       ("CustomerID", .list [.str "cus_1"]),
       ("Currency", .str "USD"),
       ("Amount", .num 20),
       ("Quantity", .num 2),
       ("Item", .str "Cleaning"),
       ("Property", .str "Unit 5")] }

/-- The normalized item `recGood` validates to. -/
def itemGood : InvoiceItem :=
  { item := "Cleaning"
    quantity := 2
    amount := 20
    currencyCode := "usd"
    property := "Unit 5"
    airtableRecordID := "recGood"
    dateServiced := secsOfDate 2024 3 5 }

/-- Like `recGood` but with currency `"EUR"`. -/
def recEUR : Record :=
  { ID := "recEUR"
    Fields :=
      [("Date", .str "2024-03-08"),
       ("DateServiced", .str "2024-03-05"),
       ("CustomerID", .list [.str "cus_1"]),
       ("Currency", .str "EUR"),
       ("Amount", .num 20),
       ("Quantity", .num 2),
       ("Item", .str "Cleaning"),
       ("Property", .str "Unit 5")] }

/-- The normalized item `recEUR` validates to: currency kept as "eur". -/
def itemEUR : InvoiceItem :=
  { item := "Cleaning"
    quantity := 2
    amount := 20
    currencyCode := "eur"
    property := "Unit 5"
    airtableRecordID := "recEUR"
    dateServiced := secsOfDate 2024 3 5 }

/-- Like `recGood` but with amount -5. -/
def recNeg : Record :=
  { ID := "recNeg"
    Fields :=
      [("Date", .str "2024-03-08"),
       ("DateServiced", .str "2024-03-05"),
       ("CustomerID", .list [.str "cus_1"]),
       ("Currency", .str "USD"),
       ("Amount", .num (-5)),
       ("Quantity", .num 2),
       ("Item", .str "Cleaning"),
       ("Property", .str "Unit 5")] }

/-- The normalized item `recNeg` validates to: negative amount kept. -/
def itemNeg : InvoiceItem :=
  { item := "Cleaning"
    quantity := 2
    amount := -5
    currencyCode := "usd"
    property := "Unit 5"
    airtableRecordID := "recNeg"
    dateServiced := secsOfDate 2024 3 5 }

/-- Like `recGood` but the amount cell holds the string "twenty". -/
def recBadAmount : Record :=
  { ID := "recBadAmount"
    Fields :=
      [("Date", .str "2024-03-08"),
       ("DateServiced", .str "2024-03-05"),
       ("CustomerID", .list [.str "cus_1"]),
       ("Currency", .str "USD"),
       ("Amount", .str "twenty"),
       ("Quantity", .num 2),
       ("Item", .str "Cleaning"),
       ("Property", .str "Unit 5")] }

/-- Like `recGood` but the billing date cell holds an unparseable string. -/
def recBadDate : Record :=
  { ID := "recBadDate"
    Fields :=
      [("Date", .str "not-a-date"),
       ("DateServiced", .str "2024-03-05"),
       ("CustomerID", .list [.str "cus_1"]),
       ("Currency", .str "USD"),
       ("Amount", .num 20),
       ("Quantity", .num 2),
       ("Item", .str "Cleaning"),
       ("Property", .str "Unit 5")] }

/-- The normalized item `recBadDate` validates to (the broken billing date
leaves no trace on the item). -/
def itemBadDate : InvoiceItem :=
  { item := "Cleaning"
    quantity := 2
    amount := 20
    currencyCode := "usd"
    property := "Unit 5"
    airtableRecordID := "recBadDate"
    dateServiced := secsOfDate 2024 3 5 }

/-- A record already marked paid. -/
def recPaid : Record :=
  { ID := "recPaid"
    Fields :=
      [("Paid", .str "true"),
       ("Date", .str "2024-03-08"),
       ("DateServiced", .str "2024-03-05"),
       ("CustomerID", .list [.str "cus_1"]),
       ("Currency", .str "USD"),
       ("Amount", .num 20),
       ("Quantity", .num 2),
       ("Item", .str "Cleaning"),
       ("Property", .str "Unit 5")] }

/-- A record whose paid cell is the boolean `true`. -/
def recPaidBool : Record :=
  { ID := "recPaidBool"
    Fields :=
      [("Paid", .boolean true),
       ("Date", .str "2024-03-08"),
       ("DateServiced", .str "2024-03-05"),
       ("CustomerID", .list [.str "cus_1"]),
       ("Currency", .str "USD"),
       ("Amount", .num 20),
       ("Quantity", .num 2),
       ("Item", .str "Cleaning"),
       ("Property", .str "Unit 5")] }

/-- First-fetched record of the out-of-order pair: serviced 2024-03-05. -/
def recA : Record :=
  { ID := "recA"
    Fields :=
      [("Date", .str "2024-03-08"),
       ("DateServiced", .str "2024-03-05"),
       ("CustomerID", .list [.str "cus_1"]),
       ("Currency", .str "USD"),
       ("Amount", .num 20),
       ("Quantity", .num 1),
       ("Item", .str "Cleaning"),
       ("Property", .str "Unit 5")] }

/-- Second-fetched record of the out-of-order pair: serviced 2024-03-01. -/
def recB : Record :=
  { ID := "recB"
    Fields :=
      [("Date", .str "2024-03-08"),
       ("DateServiced", .str "2024-03-01"),
       ("CustomerID", .list [.str "cus_1"]),
       ("Currency", .str "USD"),
       ("Amount", .num 10),
       ("Quantity", .num 1),
       ("Item", .str "Replacement"),
       ("Property", .str "Unit 5")] }

/-- Normalized item of `recA`. -/
def itemA : InvoiceItem :=
  { item := "Cleaning"
    quantity := 1
    amount := 20
    currencyCode := "usd"
    property := "Unit 5"
    airtableRecordID := "recA"
    dateServiced := secsOfDate 2024 3 5 }

/-- Normalized item of `recB`. -/
def itemB : InvoiceItem :=
  { item := "Replacement"
    quantity := 1
    amount := 10
    currencyCode := "usd"
    property := "Unit 5"
    airtableRecordID := "recB"
    dateServiced := secsOfDate 2024 3 1 }

/-- Stripe stub that accepts every invoice as `in_1`. -/
def stripeOK : String → StripeResponse := fun _ => { id := "in_1", err := none }

/-- Stripe stub that rejects every invoice. -/
def stripeFail : String → StripeResponse :=
  fun _ => { id := "", err := some "card declined" }

/-- Ledger stub whose partial updates all succeed. -/
def updOK : String → Option String := fun _ => none

/-- Ledger stub that fails the write for record "recA" only. -/
def updFailA : String → Option String :=
  fun s => if s = "recA" then some "airtable 503" else none

/-- Like `recGood` but with no billing-date field at all. -/
def recNoDate : Record :=
  { ID := "recNoDate"
    Fields :=
      [("DateServiced", .str "2024-03-05"),
       ("CustomerID", .list [.str "cus_1"]),
       ("Currency", .str "USD"),
       ("Amount", .num 20),
       ("Quantity", .num 2),
       ("Item", .str "Cleaning"),
       ("Property", .str "Unit 5")] }

/-- Like `recGood` but billed 2024-03-12, after `now0`. -/
def recFuture : Record :=
  { ID := "recFuture"
    Fields :=
      [("Date", .str "2024-03-12"),
       ("DateServiced", .str "2024-03-05"),
       ("CustomerID", .list [.str "cus_1"]),
       ("Currency", .str "USD"),
       ("Amount", .num 20),
       ("Quantity", .num 2),
       ("Item", .str "Cleaning"),
       ("Property", .str "Unit 5")] }

/-- Like `recGood` but billed 2024-02-20, beyond the 7-day stale window. -/
def recStale : Record :=
  { ID := "recStale"
    Fields :=
      [("Date", .str "2024-02-20"),
       ("DateServiced", .str "2024-03-05"),
       ("CustomerID", .list [.str "cus_1"]),
       ("Currency", .str "USD"),
       ("Amount", .num 20),
       ("Quantity", .num 2),
       ("Item", .str "Cleaning"),
       ("Property", .str "Unit 5")] }

/-- Like `recGood` but the quantity cell holds the string "two". -/
def recBadQuantity : Record :=
  { ID := "recBadQuantity"
    Fields :=
      [("Date", .str "2024-03-08"),
       ("DateServiced", .str "2024-03-05"),
       ("CustomerID", .list [.str "cus_1"]),
       ("Currency", .str "USD"),
       ("Amount", .num 20),
       ("Quantity", .str "two"),
       ("Item", .str "Cleaning"),
       ("Property", .str "Unit 5")] }

/-- A single-page fetch answer holding only already-paid records. -/
def responsesPaid : List FetchResult :=
  [Except.ok ([recPaid, recPaidBool], "")]

/-- A first page with a continuation offset, then a failing fetch. -/
def responsesErr : List FetchResult :=
  [Except.ok ([recGood], "off1"), Except.error "airtable down"]

/-- Replacement of an item's quantity, every other field untouched. -/
def setQuantity (it : InvoiceItem) (q : ℤ) : InvoiceItem :=
  { it with quantity := q }

/-- The invoice line `itemA` produces. -/
def lineA : LineParams :=
  { customer := "cus_1"
    amount := 2000
    currency := "usd"
    description := lineDescription itemA }

/-! Shared lemmas. -/

/-- The failure note written to the ledger is never the empty string. -/
theorem errorNotes_ne_empty (e : String) :
    "Error charging customer through Stripe: " ++ e ≠ "" := by
  intro h
  have hl := congrArg String.length h
  rw [String.length_append] at hl
  have h40 : ("Error charging customer through Stripe: " : String).length = 40 := rfl
  have h0 : ("" : String).length = 0 := rfl
  omega

/-- A record whose paid field prints as "true" is skipped at the first
guard. -/
theorem validateRecord_paid_skip (cfg : Config) (now : ℤ) (r : Record)
    (v : FieldValue) (hv : getField r cfg.paidColumn = some v)
    (ht : sprintfV v = "true") :
    validateRecord cfg now r =
      .skip "customer already charged for this record, skipping" := by
  have hp : paidAlready cfg r = true := by
    unfold paidAlready
    rw [hv]
    show (sprintfV v == "true") = true
    rw [ht]
    rfl
  unfold validateRecord
  rw [hp]
  rfl

/-- A batch in which every record is skipped leaves the accumulated groups
untouched and never errors. -/
theorem buildGroupsAux_all_skip (cfg : Config) (now : ℤ)
    (records : List Record)
    (h : ∀ r ∈ records, ∃ s, validateRecord cfg now r = .skip s) :
    ∀ gs, buildGroupsAux cfg now gs records = .ok gs := by
  induction records with
  | nil => intro gs; rfl
  | cons r rest ih =>
    intro gs
    obtain ⟨s, hs⟩ := h r (by simp)
    unfold buildGroupsAux
    rw [hs]
    exact ih (fun x hx => h x (by simp [hx])) gs

/-- C6: a record whose paid field has string form "true" is skipped by
validation, and a pass over a batch made up entirely of such records
produces no customer group, no charge and no ledger update. -/
theorem C6_paid_records_produce_nothing (cfg : Config) (now : ℤ)
    (responses : List FetchResult) (stripe : String → StripeResponse)
    (updateResp : String → Option String)
    (hall : ∀ r ∈ collectRecords responses, ∃ v,
      getField r cfg.paidColumn = some v ∧ sprintfV v = "true") :
    (∀ r ∈ collectRecords responses,
      validateRecord cfg now r =
        .skip "customer already charged for this record, skipping") ∧
    runPass cfg now responses stripe updateResp = .ok [] := by
  have hskip : ∀ r ∈ collectRecords responses,
      validateRecord cfg now r =
        .skip "customer already charged for this record, skipping" := by
    intro r hr
    obtain ⟨v, hv, ht⟩ := hall r hr
    exact validateRecord_paid_skip cfg now r v hv ht
  refine ⟨hskip, ?_⟩
  unfold runPass buildGroups
  rw [buildGroupsAux_all_skip cfg now (collectRecords responses)
    (fun r hr => ⟨_, hskip r hr⟩) []]
  rfl

/-- C6 witness: a pass over two concrete already-paid records (one paid
cell a string, one a boolean) yields zero groups, charges and writes. -/
theorem C6_witness :
    runPass cfg0 now0 responsesPaid stripeOK updOK = .ok [] ∧
    validateRecord cfg0 now0 recPaid =
      .skip "customer already charged for this record, skipping" := by
  have h := C6_paid_records_produce_nothing cfg0 now0 responsesPaid stripeOK updOK
    (by
      intro r hr
      have hr2 : r = recPaid ∨ r = recPaidBool := by
        simpa [responsesPaid, collectRecords] using hr
      rcases hr2 with h1 | h1
      · exact ⟨.str "true", by rw [h1]; exact ⟨rfl, rfl⟩⟩
      · exact ⟨.boolean true, by rw [h1]; exact ⟨rfl, rfl⟩⟩)
  exact ⟨h.2, h.1 recPaid (by simp [responsesPaid, collectRecords])⟩

/-- C7: within one customer group the outcome fans out uniformly: every
contributing record receives the identical paid/notes pair, that pair is
("true", confirmation id) on success and ("false", non-empty failure text)
on failure, and one update is attempted per contributing record no matter
how the individual ledger writes respond. -/
theorem C7_group_outcome_moves_together (stripe : String → StripeResponse)
    (updateResp : String → Option String) (customerID : String)
    (invoices : List InvoiceItem) :
    ((processGroup stripe updateResp customerID invoices).updates =
      invoices.map fun inv =>
        { recordID := inv.airtableRecordID
          paid := (processGroup stripe updateResp customerID invoices).paidVal
          notes := (processGroup stripe updateResp customerID invoices).notesVal
          writeResult := updateResp inv.airtableRecordID }) ∧
    ((processGroup stripe updateResp customerID invoices).charge.err = none →
      (processGroup stripe updateResp customerID invoices).paidVal = "true" ∧
      (processGroup stripe updateResp customerID invoices).notesVal =
        (processGroup stripe updateResp customerID invoices).charge.invoiceID) ∧
    (∀ e, (processGroup stripe updateResp customerID invoices).charge.err = some e →
      (processGroup stripe updateResp customerID invoices).paidVal = "false" ∧
      (processGroup stripe updateResp customerID invoices).notesVal ≠ "") ∧
    (processGroup stripe updateResp customerID invoices).updates.length =
      invoices.length := by
  cases he : (chargeStripe stripe customerID invoices).err with
  | none =>
    refine ⟨by simp [processGroup, he], fun _ => ⟨by simp [processGroup, he], by simp [processGroup, he]⟩, fun e hee => ?_, by simp [processGroup]⟩
    rw [show (processGroup stripe updateResp customerID invoices).charge =
      chargeStripe stripe customerID invoices from rfl, he] at hee
    cases hee
  | some e =>
    refine ⟨by simp [processGroup, he], fun hn => ?_, fun e2 hee => ?_, by simp [processGroup]⟩
    · rw [show (processGroup stripe updateResp customerID invoices).charge =
        chargeStripe stripe customerID invoices from rfl, he] at hn
      cases hn
    · exact ⟨by simp [processGroup, he], by
        simp only [processGroup, he]
        exact errorNotes_ne_empty e⟩

/-- C7 witness: with a Stripe stub that rejects the charge and a ledger
stub that fails one of the two sibling writes, both records still receive
the identical ("false", note) update and both writes are attempted. -/
theorem C7_witness :
    (processGroup stripeFail updFailA "cus_1" [itemA, itemB]).paidVal = "false" ∧
    (processGroup stripeFail updFailA "cus_1" [itemA, itemB]).notesVal ≠ "" ∧
    (processGroup stripeFail updFailA "cus_1" [itemA, itemB]).updates.length = 2 := by
  have h := C7_group_outcome_moves_together stripeFail updFailA "cus_1" [itemA, itemB]
  have hf := h.2.2.1 "card declined" rfl
  exact ⟨hf.1, hf.2, h.2.2.2⟩

/-- An item outside the usd/positive-amount envelope never becomes an
invoice line. -/
theorem mkLine_eq_none (customerID : String) (it : InvoiceItem)
    (h : it.currencyCode ≠ "usd" ∨ minorUnits it.amount ≤ 0) :
    mkLine customerID it = none := by
  rcases h with h | h
  · simp [mkLine, h]
  · by_cases hc : it.currencyCode = "usd"
    · simp [mkLine, hc, h]
    · simp [mkLine, hc]

/-- C9: when a non-empty group's items are all dropped at charge time
(non-"usd" currency or non-positive minor-unit amount), `chargeStripe`
still submits zero lines yet creates the invoice, and if that creation
succeeds every source record in the group is updated with paid "true" and
the invoice id — records get marked paid with nothing charged. -/
theorem C9_dropped_group_still_invoiced_and_paid
    (stripe : String → StripeResponse) (updateResp : String → Option String)
    (customerID : String) (items : List InvoiceItem)
    (hne : items ≠ [])
    (hdrop : ∀ it ∈ items, it.currencyCode ≠ "usd" ∨ minorUnits it.amount ≤ 0) :
    (processGroup stripe updateResp customerID items).charge.lines = [] ∧
    (processGroup stripe updateResp customerID items).charge.invoiceCreated = true ∧
    ((stripe customerID).err = none →
      (processGroup stripe updateResp customerID items).updates.map
          (fun u => (u.paid, u.notes)) =
        items.map fun _ => ("true", (stripe customerID).id)) := by
  have hlen : ¬ items.length ≤ 0 := by
    simp only [Nat.le_zero, List.length_eq_zero]
    exact hne
  have hcharge : chargeStripe stripe customerID items =
      { lines := items.filterMap (mkLine customerID)
        invoiceID := (stripe customerID).id
        err := (stripe customerID).err
        invoiceCreated := true } := by
    unfold chargeStripe
    rw [if_neg hlen]
  have hnil : items.filterMap (mkLine customerID) = [] :=
    List.filterMap_eq_nil_iff.mpr fun it hit =>
      mkLine_eq_none customerID it (hdrop it hit)
  refine ⟨?_, ?_, ?_⟩
  · show (chargeStripe stripe customerID items).lines = []
    rw [hcharge]
    exact hnil
  · show (chargeStripe stripe customerID items).invoiceCreated = true
    rw [hcharge]
  · intro herr
    simp only [processGroup, hcharge, herr, List.map_map]
    rfl

/-- C9 witness: a group holding only the concrete "eur" item submits no
line, still gets its invoice, and its record is marked paid with the
invoice id. -/
theorem C9_witness :
    (processGroup stripeOK updOK "cus_1" [itemEUR]).charge.lines = [] ∧
    (processGroup stripeOK updOK "cus_1" [itemEUR]).charge.invoiceCreated = true ∧
    (processGroup stripeOK updOK "cus_1" [itemEUR]).updates.map
      (fun u => (u.paid, u.notes)) = [("true", "in_1")] := by
  have h := C9_dropped_group_still_invoiced_and_paid stripeOK updOK "cus_1" [itemEUR]
    (by simp)
    (by
      intro it hit
      simp only [List.mem_singleton] at hit
      subst hit
      left
      decide)
  exact ⟨h.1, h.2.1, by simpa using h.2.2 rfl⟩

/-- Changing only an item's quantity changes no invoice line. -/
theorem mkLine_setQuantity (customerID : String) (it : InvoiceItem) (q : ℤ) :
    mkLine customerID (setQuantity it q) = mkLine customerID it := rfl

/-- C10: the validated quantity (the `float64` cell truncated to `int64`)
never reaches Stripe: replacing every item's quantity leaves the submitted
charge and all ledger updates unchanged, and every submitted line's amount
is exactly the item amount converted to minor units. -/
theorem C10_quantity_never_reaches_stripe :
    (∀ (stripe : String → StripeResponse) (updateResp : String → Option String)
        (customerID : String) (items : List InvoiceItem) (f : InvoiceItem → ℤ),
      (processGroup stripe updateResp customerID
          (items.map fun it => setQuantity it (f it))).charge =
        (processGroup stripe updateResp customerID items).charge ∧
      (processGroup stripe updateResp customerID
          (items.map fun it => setQuantity it (f it))).updates =
        (processGroup stripe updateResp customerID items).updates) ∧
    (∀ (cfg : Config) (r : Record) (q : ℚ),
      getField r cfg.quantityColumn = some (.num q) →
      quantityStep cfg r = .value (truncRat q)) ∧
    (∀ (customerID : String) (it : InvoiceItem) (l : LineParams),
      mkLine customerID it = some l → l.amount = minorUnits it.amount) := by
  refine ⟨?_, ?_, ?_⟩
  · intro stripe updateResp customerID items f
    have hc : chargeStripe stripe customerID
        (items.map fun it => setQuantity it (f it)) =
        chargeStripe stripe customerID items := by
      unfold chargeStripe
      rw [List.length_map]
      by_cases hl : items.length ≤ 0
      · rw [if_pos hl, if_pos hl]
      · rw [if_neg hl, if_neg hl, List.filterMap_map]
        have : items.filterMap ((mkLine customerID) ∘ fun it => setQuantity it (f it)) =
            items.filterMap (mkLine customerID) :=
          List.filterMap_congr fun x _ => mkLine_setQuantity customerID x (f x)
        rw [this]
    constructor
    · simp [processGroup, hc]
    · simp only [processGroup, hc, List.map_map]
      rfl
  · intro cfg r q h
    unfold quantityStep
    rw [h]
  · intro customerID it l h
    unfold mkLine at h
    split at h
    · split at h
      · cases h
      · injection h with h2
        subst h2
        rfl
    · cases h

/-- C10 witness: quintupling the concrete item's quantity leaves the
charge untouched, and its line's amount is the minor-unit conversion of
the 20.00 amount. -/
theorem C10_witness :
    (processGroup stripeOK updOK "cus_1" [setQuantity itemA 5]).charge =
      (processGroup stripeOK updOK "cus_1" [itemA]).charge ∧
    lineA.amount = minorUnits itemA.amount := by
  have h := C10_quantity_never_reaches_stripe
  refine ⟨?_, h.2.2 "cus_1" itemA lineA (by rfl)⟩
  have h1 := (h.1 stripeOK updOK "cus_1" [itemA] fun _ => 5).1
  simpa using h1

/-- Inversion: a successfully validated item carries exactly the currency
the currency step extracted. -/
theorem validateRecord_ok_currency (cfg : Config) (now : ℤ) (r : Record)
    (cust : String) (it : InvoiceItem)
    (hok : validateRecord cfg now r = .ok cust it) :
    currencyStep cfg r = .value it.currencyCode := by
  unfold validateRecord at hok
  split at hok
  next => cases hok
  next =>
  split at hok
  next => cases hok
  next =>
  split at hok
  next => cases hok
  next => cases hok
  next sd hsd =>
  split at hok
  next => cases hok
  next => cases hok
  next cust2 hcust =>
  split at hok
  next => cases hok
  next => cases hok
  next cur hcur =>
  split at hok
  next => cases hok
  next => cases hok
  next amt hamt =>
  split at hok
  next => cases hok
  next => cases hok
  next qty hqty =>
  split at hok
  next => cases hok
  next => cases hok
  next itv hitv =>
  split at hok
  next => cases hok
  next => cases hok
  next prop hprop =>
  cases hok
  exact hcur

/-- C1 (amended): a record whose present currency code lower-cases to
anything other than "usd" is not skipped for it — when the rest of the
record validates, the item enters its customer group carrying the non-usd
code — but such an item never contributes an invoice line at charge time,
and the currency step itself can never raise the panic outcome. -/
theorem C1_nonusd_validated_but_never_billed :
    (∀ (cfg : Config) (now : ℤ) (r : Record) (v : FieldValue)
        (cust cid : String) (it : InvoiceItem),
      getField r cfg.currencyCodeColumn = some v →
      lowerStr (sprintfS v) ≠ "usd" →
      validateRecord cfg now r = .ok cust it →
      it.currencyCode ≠ "usd" ∧ mkLine cid it = none) ∧
    (∀ (cfg : Config) (r : Record) (m : String),
      currencyStep cfg r ≠ .crash m) := by
  constructor
  · intro cfg now r v cust cid it hv hne hok
    have hcs := validateRecord_ok_currency cfg now r cust it hok
    unfold currencyStep at hcs
    rw [hv] at hcs
    have hcs2 : StepResult.value (lowerStr (sprintfS v)) =
        StepResult.value it.currencyCode := hcs
    injection hcs2 with h3
    constructor
    · rw [← h3]; exact hne
    · exact mkLine_eq_none cid it (Or.inl (h3 ▸ hne))
  · intro cfg r m h
    unfold currencyStep at h
    split at h
    · cases h
    · cases h

/-- C1 counterexample: the concrete record with currency "EUR" is not
skipped by validation — it validates into a customer group — and when the
group's invoice creation succeeds its ledger update marks it paid. -/
theorem C1_counterexample :
    validateRecord cfg0 now0 recEUR = .ok "cus_1" itemEUR ∧
    buildGroups cfg0 now0 [recEUR] = .ok [("cus_1", [itemEUR])] ∧
    (processGroup stripeOK updOK "cus_1" [itemEUR]).updates.map
      (fun u => (u.recordID, u.paid, u.notes)) = [("recEUR", "true", "in_1")] := by
  refine ⟨by rfl, by rfl, by rfl⟩

/-- C1 witness: the amended theorem applied to the concrete "EUR" record:
its item keeps currency "eur" and produces no invoice line. -/
theorem C1_witness :
    itemEUR.currencyCode ≠ "usd" ∧ mkLine "cus_1" itemEUR = none :=
  C1_nonusd_validated_but_never_billed.1 cfg0 now0 recEUR (.str "EUR")
    "cus_1" "cus_1" itemEUR rfl (by decide) rfl

/-- C3: the amount guard tests `== 0` only, so the concrete record with
amount -5 validates (its log line notwithstanding) and enters aggregation
with the negative amount intact. -/
theorem C3_negative_amount_enters_aggregation :
    validateRecord cfg0 now0 recNeg = .ok "cus_1" itemNeg ∧
    itemNeg.amount = -5 ∧
    buildGroups cfg0 now0 [recNeg] = .ok [("cus_1", [itemNeg])] ∧
    amountStep cfg0 recNeg = .value (-5) := by
  refine ⟨by rfl, by rfl, by rfl, by rfl⟩

/-- C4 (amended): a present amount or quantity cell holding a non-numeric
value does not produce a per-record skip — the unchecked type assertion
panics, and a panic reaching any record aborts the whole batch. -/
theorem C4_nonnumeric_value_panics :
    (∀ (cfg : Config) (r : Record) (v : FieldValue),
      getField r cfg.invoiceAmountColumn = some v →
      (∀ q : ℚ, v ≠ .num q) →
      amountStep cfg r = .crash "interface conversion: interface is not float64") ∧
    (∀ (cfg : Config) (r : Record) (v : FieldValue),
      getField r cfg.quantityColumn = some v →
      (∀ q : ℚ, v ≠ .num q) →
      quantityStep cfg r = .crash "interface conversion: interface is not float64") ∧
    (∀ (cfg : Config) (now : ℤ) (r : Record) (m : String) (rest : List Record),
      validateRecord cfg now r = .crash m →
      buildGroups cfg now (r :: rest) = .error m) := by
  refine ⟨?_, ?_, ?_⟩
  · intro cfg r v hv hq
    unfold amountStep
    rw [hv]
    cases v with
    | num q => exact absurd rfl (hq q)
    | str s => rfl
    | boolean b => rfl
    | list l => rfl
  · intro cfg r v hv hq
    unfold quantityStep
    rw [hv]
    cases v with
    | num q => exact absurd rfl (hq q)
    | str s => rfl
    | boolean b => rfl
    | list l => rfl
  · intro cfg now r m rest h
    unfold buildGroups buildGroupsAux
    rw [h]

/-- C4 counterexample: the concrete record whose amount cell is the string
"twenty" makes validation panic, and the panic takes the entire pass down
with it — the otherwise valid sibling record is never processed. -/
theorem C4_counterexample :
    validateRecord cfg0 now0 recBadAmount =
      .crash "interface conversion: interface is not float64" ∧
    buildGroups cfg0 now0 [recBadAmount, recGood] =
      .error "interface conversion: interface is not float64" := by
  refine ⟨by rfl, by rfl⟩

/-- C4 witness: the amended theorem applied to the concrete bad-amount and
bad-quantity records. -/
theorem C4_witness :
    amountStep cfg0 recBadAmount =
      .crash "interface conversion: interface is not float64" ∧
    quantityStep cfg0 recBadQuantity =
      .crash "interface conversion: interface is not float64" ∧
    buildGroups cfg0 now0 [recBadAmount, recGood] =
      .error "interface conversion: interface is not float64" :=
  ⟨C4_nonnumeric_value_panics.1 cfg0 recBadAmount (.str "twenty") rfl
      (fun _ h => FieldValue.noConfusion h),
   C4_nonnumeric_value_panics.2.1 cfg0 recBadQuantity (.str "two") rfl
      (fun _ h => FieldValue.noConfusion h),
   C4_nonnumeric_value_panics.2.2 cfg0 now0 recBadAmount
      "interface conversion: interface is not float64" [recGood] (by rfl)⟩

/-- C5 (amended): the billing-date policy as the code implements it — an
absent date skips; a present date that parses skips when now is not
strictly past it and skips when it lies before now plus the stale window,
passing the date checks only otherwise; but a present date that fails to
parse bypasses the date checks entirely instead of skipping. -/
theorem C5_date_policy (cfg : Config) (now : ℤ) (r : Record) :
    (getField r cfg.dateColumn = none →
      dateCheck cfg now r = some "date not present, skipping") ∧
    (∀ v, getField r cfg.dateColumn = some v →
      parseDateSecs (sprintfV v) = none → dateCheck cfg now r = none) ∧
    (∀ v t, getField r cfg.dateColumn = some v →
      parseDateSecs (sprintfV v) = some t →
      (¬ t < now → dateCheck cfg now r = some "date in future, skipping") ∧
      (t < now → t < now + cfg.staleDays * secondsPerDay →
        dateCheck cfg now r = some "pay date too old, skipping") ∧
      (t < now → ¬ t < now + cfg.staleDays * secondsPerDay →
        dateCheck cfg now r = none)) ∧
    (∀ reason, paidAlready cfg r = false → dateCheck cfg now r = some reason →
      validateRecord cfg now r = .skip reason) := by
  refine ⟨?_, ?_, ?_, ?_⟩
  · intro h
    unfold dateCheck
    rw [h]
  · intro v hv hp
    unfold dateCheck
    rw [hv]
    show (match parseDateSecs (sprintfV v) with
      | none => none
      | some t =>
        if ¬ t < now then some "date in future, skipping"
        else if t < now + cfg.staleDays * secondsPerDay then
          some "pay date too old, skipping"
        else none) = none
    rw [hp]
  · intro v t hv hp
    have hd : dateCheck cfg now r =
        (if ¬ t < now then some "date in future, skipping"
         else if t < now + cfg.staleDays * secondsPerDay then
           some "pay date too old, skipping"
         else none) := by
      unfold dateCheck
      rw [hv]
      show (match parseDateSecs (sprintfV v) with
        | none => none
        | some t =>
          if ¬ t < now then some "date in future, skipping"
          else if t < now + cfg.staleDays * secondsPerDay then
            some "pay date too old, skipping"
          else none) = _
      rw [hp]
    refine ⟨?_, ?_, ?_⟩
    · intro hf
      rw [hd, if_pos hf]
    · intro h1 h2
      rw [hd, if_neg (by exact fun hc => hc h1), if_pos h2]
    · intro h1 h2
      rw [hd, if_neg (by exact fun hc => hc h1), if_neg h2]
  · intro reason hpaid hdc
    unfold validateRecord
    rw [hpaid]
    show (match dateCheck cfg now r with
      | some reason => ValidationResult.skip reason
      | none => _) = ValidationResult.skip reason
    rw [hdc]

/-- C5 counterexample: the concrete record whose billing-date cell holds
"not-a-date" is not skipped — the date guard passes it through and the
record validates into a customer group. -/
theorem C5_counterexample :
    dateCheck cfg0 now0 recBadDate = none ∧
    validateRecord cfg0 now0 recBadDate = .ok "cus_1" itemBadDate := by
  refine ⟨by rfl, by rfl⟩

/-- C5 witness: the amended policy applied to concrete records — a missing
date skips, a future date skips, a stale date skips. -/
theorem C5_witness :
    dateCheck cfg0 now0 recNoDate = some "date not present, skipping" ∧
    validateRecord cfg0 now0 recFuture = .skip "date in future, skipping" ∧
    validateRecord cfg0 now0 recStale = .skip "pay date too old, skipping" := by
  have h1 := (C5_date_policy cfg0 now0 recNoDate).1 rfl
  have hf := ((C5_date_policy cfg0 now0 recFuture).2.2.1 (.str "2024-03-12")
    (secsOfDate 2024 3 12) rfl rfl).1 (by decide)
  have hf2 := (C5_date_policy cfg0 now0 recFuture).2.2.2
    "date in future, skipping" rfl hf
  have hs := ((C5_date_policy cfg0 now0 recStale).2.2.1 (.str "2024-02-20")
    (secsOfDate 2024 2 20) rfl rfl).2.1 (by decide) (by decide)
  have hs2 := (C5_date_policy cfg0 now0 recStale).2.2.2
    "pay date too old, skipping" rfl hs
  exact ⟨h1, hf2, hs2⟩

/-- C2: in the concrete pass the two same-customer records arrive with
service dates 2024-03-05 then 2024-03-01; the invoice lines are submitted
in exactly that fetch order (amounts 2000 then 1000, the later-serviced
item first), even though the chronologically sorted copy the code builds
is the reversed pair — the sort's output is never what is submitted. -/
theorem C2_lines_submitted_in_fetch_order :
    buildGroups cfg0 now0 [recA, recB] = .ok [("cus_1", [itemA, itemB])] ∧
    itemB.dateServiced < itemA.dateServiced ∧
    minorUnits itemA.amount = 2000 ∧
    minorUnits itemB.amount = 1000 ∧
    (processGroup stripeOK updOK "cus_1" [itemA, itemB]).charge.lines.map
      LineParams.amount = [2000, 1000] ∧
    (processGroup stripeOK updOK "cus_1" [itemA, itemB]).date_sorted_invoices =
      [itemB, itemA] := by
  refine ⟨by rfl, by decide, by decide, by decide, by rfl, by rfl⟩

/-- C8 (amended): a fetch error stops pagination but not the pass — the
records of the pages already fetched are kept and the pass runs on them
exactly as if the last good page had closed the pagination. -/
theorem C8_fetch_error_ends_pagination_only
    (recs : List Record) (off e : String) (rest : List FetchResult)
    (hoff : off ≠ "") :
    collectRecords (Except.ok (recs, off) :: Except.error e :: rest) = recs ∧
    (∀ (cfg : Config) (now : ℤ) (stripe : String → StripeResponse)
        (updateResp : String → Option String),
      runPass cfg now (Except.ok (recs, off) :: Except.error e :: rest)
          stripe updateResp =
        runPass cfg now [Except.ok (recs, "")] stripe updateResp) := by
  have hcol : collectRecords (Except.ok (recs, off) :: Except.error e :: rest) =
      recs := by
    unfold collectRecords
    rw [if_neg hoff]
    show recs ++ collectRecords (Except.error e :: rest) = recs
    rw [show collectRecords (Except.error e :: rest) = [] from rfl,
      List.append_nil]
  have hcol2 : collectRecords [Except.ok (recs, "")] = recs := by
    unfold collectRecords
    rw [if_pos rfl, List.append_nil]
  refine ⟨hcol, ?_⟩
  intro cfg now stripe updateResp
  unfold runPass
  rw [hcol, hcol2]

/-- C8 counterexample: with a first page delivering one valid record and a
failing second fetch, the pass still validates, charges and writes that
record — refuting the claim that nothing from the pass is processed. -/
theorem C8_counterexample :
    collectRecords responsesErr = [recGood] ∧
    (runPass cfg0 now0 responsesErr stripeOK updOK).toOption.map
        (List.map fun p => (p.1, p.2.updates.map fun u =>
          (u.recordID, u.paid, u.notes))) =
      some [("cus_1", [("recGood", "true", "in_1")])] := by
  refine ⟨by rfl, by rfl⟩

/-- C8 witness: the amended theorem applied to the concrete one-page-then-
error response sequence. -/
theorem C8_witness :
    collectRecords (Except.ok ([recGood], "off1") ::
      Except.error "airtable down" :: []) = [recGood] ∧
    runPass cfg0 now0 (Except.ok ([recGood], "off1") ::
        Except.error "airtable down" :: []) stripeOK updOK =
      runPass cfg0 now0 [Except.ok ([recGood], "")] stripeOK updOK := by
  have h := C8_fetch_error_ends_pagination_only [recGood] "off1"
    "airtable down" [] (by decide)
  exact ⟨h.1, h.2 cfg0 now0 stripeOK updOK⟩

end Charger

